import Mathlib

/-!
Shallow embedding of `src/windows/process.rs` (sysinfo, Windows process backend).

Modelling conventions:
* OS calls are oracle parameters.  `OpenProcess` is a function from the
  requested access-rights mask and the pid to `Option Nat`, where `none`
  stands for a NULL handle (failure) and `some h` for a valid handle value.
* Functions that the claims quantify over the *calls made to the OS* come in
  a `_traced` form returning the result paired with the list of OS requests
  issued, in order; the untraced form is its first projection.
* `FILETIME` is a pair of 32-bit words `(dwLowDateTime, dwHighDateTime)`;
  the `memcpy` into a `u64` reassembles them little-endian
  (`filetime_to_u64`).
* Rust `u64` subtraction wraps (release mode); `u64_sub` models it.
* `f32` arithmetic is idealised as exact rational arithmetic.  A division by
  zero produces a non-finite `f32` value (NaN or ±infinity); we model an
  `f32` that may be non-finite as `Option Rat`, with `none` standing for any
  non-finite value and `some q` for the finite value `q`.  This keeps the
  finite/non-finite distinction the claims talk about while idealising
  rounding.
-/

/-- Access-right constant `PROCESS_QUERY_INFORMATION` (winnt.h). -/
def PROCESS_QUERY_INFORMATION : Nat := 0x0400

/-- Access-right constant `PROCESS_VM_READ` (winnt.h). -/
def PROCESS_VM_READ : Nat := 0x0010

/-- Access-right constant `PROCESS_TERMINATE` (winnt.h). -/
def PROCESS_TERMINATE : Nat := 0x0001

/-- Wrapping 64-bit subtraction, as Rust `u64` subtraction in release mode. -/
def u64_sub (a b : Nat) : Nat :=
  (a % 2 ^ 64 + 2 ^ 64 - b % 2 ^ 64) % 2 ^ 64

/-- Reassembly of a `FILETIME` two-word value into one 64-bit integer, as the
`memcpy(&mut u64, &mut FILETIME, 8)` in `get_start_time` and
`compute_cpu_usage` does on a little-endian machine: the low word becomes the
least-significant 32 bits. -/
def filetime_to_u64 (lo hi : Nat) : Nat :=
  lo % 2 ^ 32 + 2 ^ 32 * (hi % 2 ^ 32)

/-- Division of (idealised) `f32` values: a zero divisor yields a non-finite
result (NaN when the dividend is 0, ±infinity otherwise), modelled as
`none`. -/
def f32_div (a b : Rat) : Option Rat :=
  if b = 0 then none else some (a / b)

/-- Division where the dividend may already be non-finite; a non-finite
dividend stays non-finite through the division. -/
def f32_div_opt (a : Option Rat) (b : Rat) : Option Rat :=
  match a with
  | none => none
  | some q => f32_div q b

/-- Multiplication of a possibly non-finite `f32` by the constant `100.`;
non-finite stays non-finite. -/
def f32_mul100 (a : Option Rat) : Option Rat :=
  match a with
  | none => none
  | some q => some (q * 100)

/-- Decoding of one UTF-16 unit outside a surrogate pair, as
`String::from_utf16_lossy` does: valid scalar values decode to themselves,
anything else to U+FFFD. -/
def utf16_one (u : Nat) : Char :=
  if u < 0xD800 then Char.ofNat u
  else if 0xE000 ≤ u ∧ u < 0x10000 then Char.ofNat u
  else Char.ofNat 0xFFFD

/-- Decoding of a UTF-16 code-unit sequence, as `String::from_utf16_lossy`:
a high surrogate followed by a low surrogate combines into one scalar,
everything else goes through `utf16_one`. -/
def utf16_chars : List Nat → List Char
  | [] => []
  | [u] => [utf16_one u]
  | u :: v :: rest =>
    if 0xD800 ≤ u ∧ u < 0xDC00 ∧ 0xDC00 ≤ v ∧ v < 0xE000 then
      Char.ofNat (0x10000 + (u - 0xD800) * 0x400 + (v - 0xDC00)) :: utf16_chars rest
    else
      utf16_one u :: utf16_chars (v :: rest)

/-- Model of `String::from_utf16_lossy`. -/
def from_utf16_lossy (l : List Nat) : String :=
  String.mk (utf16_chars l)

/-- Enum `ProcessStatus` of the source: only `Run` exists on this backend. -/
inductive ProcessStatus where
  | Run
  deriving DecidableEq

/-- Display string of a status, as `ProcessStatus::to_string`. -/
def ProcessStatus.to_string : ProcessStatus → String
  | ProcessStatus.Run => "Runnable"

/-- Model of the `Process` struct.  `handle : Option Nat` models the raw
`HANDLE` field, `none` standing for a NULL handle.  `cpu_usage : Option Rat`
models the `f32` field (see the header: `none` = non-finite). -/
structure Process where
  name : String
  cmd : String
  exe : String
  pid : Nat
  environ : List String
  cwd : String
  root : String
  memory : Nat
  parent : Option Nat
  status : ProcessStatus
  handle : Option Nat
  old_cpu : Nat
  old_sys_cpu : Nat
  old_user_cpu : Nat
  start_time : Nat
  cpu_usage : Option Rat
  deriving DecidableEq

/-- Model of `get_process_handler`, instrumented with the list of
access-rights masks passed to `OpenProcess`, in call order.  The source
returns `None` for pid 0, otherwise calls `OpenProcess` with
query+vm_read+terminate, and on a NULL result retries with query+vm_read. -/
def get_process_handler_traced (openProcess : Nat → Nat → Option Nat) (pid : Nat) :
    Option Nat × List Nat :=
  if pid = 0 then (none, [])
  else
    let options := Nat.lor (Nat.lor PROCESS_QUERY_INFORMATION PROCESS_VM_READ) PROCESS_TERMINATE
    match openProcess options pid with
    | none =>
      let options2 := Nat.lor PROCESS_QUERY_INFORMATION PROCESS_VM_READ
      match openProcess options2 pid with
      | none => (none, [options, options2])
      | some h => (some h, [options, options2])
    | some h => (some h, [options])

/-- Model of `get_process_handler` (result only). -/
def get_process_handler (openProcess : Nat → Nat → Option Nat) (pid : Nat) :
    Option Nat :=
  (get_process_handler_traced openProcess pid).1

/-- Model of `get_cmd_line`: the whole body is commented out in the source
and it returns the empty string unconditionally. -/
def get_cmd_line (_handle : Option Nat) : String := ""

/-- Model of `get_proc_env`: the whole body is commented out in the source
and it returns the empty vector unconditionally, for every handle, pid and
name — including the caller's own pid. -/
def get_proc_env (_handle : Option Nat) (_pid : Nat) (_name : String) : List String :=
  []

/-- Model of `get_start_time`.  The local `FILETIME` is zero-initialised and
the return value of `GetProcessTimes` is ignored, so a failed query leaves
the zeroed words in place; `creation` is the creation-time `FILETIME` the OS
wrote, or `none` when the call failed and wrote nothing. -/
def get_start_time (creation : Option (Nat × Nat)) : Nat :=
  match creation with
  | none => filetime_to_u64 0 0
  | some lohi => filetime_to_u64 lohi.1 lohi.2

/-- Model of `Process::new` (the `ProcessExt` impl).  Oracle parameters:
`openProcess` as in `get_process_handler`; `enum_modules` is the success of
`EnumProcessModulesEx` on the handle; `module_base_name` is the UTF-16
buffer content `GetModuleBaseNameW` wrote for the handle (the source buffer
is `[0u16; MAX_PATH + 1]`, i.e. 261 zero words when never written);
`creation_time` is the creation `FILETIME` of `GetProcessTimes` on the
handle, `none` on failure.  The source scans the buffer up to the first zero
word and decodes that prefix with `from_utf16_lossy`. -/
def Process.new (openProcess : Nat → Nat → Option Nat)
    (enum_modules : Nat → Bool) (module_base_name : Nat → List Nat)
    (creation_time : Nat → Option (Nat × Nat))
    (pid : Nat) (parent : Option Nat) : Process :=
  match get_process_handler openProcess pid with
  | some process_handler =>
    let process_name : List Nat :=
      if enum_modules process_handler then module_base_name process_handler
      else List.replicate 261 0
    let name := from_utf16_lossy (process_name.takeWhile (fun x => x != 0))
    let environ := get_proc_env (some process_handler) pid name
    { handle := some process_handler
      name := name
      pid := pid
      parent := parent
      cmd := get_cmd_line (some process_handler)
      environ := environ
      exe := ""
      cwd := ""
      root := ""
      status := ProcessStatus.Run
      memory := 0
      cpu_usage := some 0
      old_cpu := 0
      old_sys_cpu := 0
      old_user_cpu := 0
      start_time := get_start_time (creation_time process_handler) }
  | none =>
    { handle := none
      name := ""
      pid := pid
      parent := parent
      cmd := ""
      environ := []
      exe := ""
      cwd := ""
      root := ""
      status := ProcessStatus.Run
      memory := 0
      cpu_usage := some 0
      old_cpu := 0
      old_sys_cpu := 0
      old_user_cpu := 0
      start_time := 0 }

/-- Model of `Process::kill`, instrumented with the list of
`TerminateProcess` requests issued, as `(handle, exit code)` pairs.  The
source calls `TerminateProcess(self.handle, signal)` unconditionally — there
is no check that the handle is non-NULL — and returns whether the OS
reported a nonzero result.  `terminateProcess` is the OS oracle: the result
the OS reports for a given handle (possibly NULL, i.e. `none`) and code. -/
def Process.kill_traced (terminateProcess : Option Nat → Nat → Bool)
    (p : Process) (signal : Nat) : Bool × List (Option Nat × Nat) :=
  let x := terminateProcess p.handle signal
  (x, [(p.handle, signal)])

/-- Model of `Process::kill` (result only). -/
def Process.kill (terminateProcess : Option Nat → Nat → Bool)
    (p : Process) (signal : Nat) : Bool :=
  (Process.kill_traced terminateProcess p signal).1

/-- Model of `Clone` for `Process` (the struct carries
`#[derive(Clone)]`): a field-wise copy, which duplicates the raw `handle`
value into the new record. -/
def Process.clone (p : Process) : Process := p

/-- Model of `Drop` for `Process`: the list of `CloseHandle` calls the
destructor issues — none when the handle is NULL, exactly one on the held
handle otherwise. -/
def Process.drop (p : Process) : List Nat :=
  match p.handle with
  | none => []
  | some h => [h]

/-- Model of `get_parent_process_id`.  The snapshot taken by
`CreateToolhelp32Snapshot`/`Process32First`/`Process32Next` is the oracle: a
list of `(th32ProcessID, th32ParentProcessID)` entries in enumeration order.
The source walks the entries in order and returns the parent pid of the
first entry whose own pid equals the query, `None` when the walk is
exhausted. -/
def get_parent_process_id (snapshot : List (Nat × Nat)) (pid : Nat) : Option Nat :=
  match snapshot with
  | [] => none
  | entry :: rest =>
    if pid == entry.1 then some entry.2
    else get_parent_process_id rest pid

/-- Model of `compute_cpu_usage`.  `system_time` is the `FILETIME` written
by `GetSystemTimeAsFileTime` (which does not fail); `process_times` is
`some (kernel FILETIME, user FILETIME)` when `GetProcessTimes` succeeds and
`none` when it fails — the source ignores its return value, and on failure
the zero-initialised local `FILETIME`s are used as if they were readings.
The usage is `(sys Δ + user Δ) / wall Δ / nb_processors * 100` computed with
wrapping `u64` subtractions then `f32` arithmetic, and all three `old_*`
fields are overwritten with the current readings. -/
def compute_cpu_usage (p : Process) (nb_processors : Nat)
    (system_time : Nat × Nat)
    (process_times : Option ((Nat × Nat) × (Nat × Nat))) : Process :=
  let now := filetime_to_u64 system_time.1 system_time.2
  let fsys := match process_times with
    | some x => x.1
    | none => (0, 0)
  let fuser := match process_times with
    | some x => x.2
    | none => (0, 0)
  let sys := filetime_to_u64 fsys.1 fsys.2
  let user := filetime_to_u64 fuser.1 fuser.2
  let num : Rat := ((u64_sub sys p.old_sys_cpu : Nat) : Rat) +
    ((u64_sub user p.old_user_cpu : Nat) : Rat)
  let usage := f32_mul100 (f32_div_opt
    (f32_div num ((u64_sub now p.old_cpu : Nat) : Rat)) (nb_processors : Rat))
  { p with
    cpu_usage := usage
    old_cpu := now
    old_user_cpu := user
    old_sys_cpu := sys }

/-- Model of `update_memory`.  `mem_query` is `some privateUsage` when
`GetProcessMemoryInfo` returns nonzero (success) and `none` on failure; on
success `memory` is set to `PrivateUsage >> 10`, on failure the record is
left untouched. -/
def update_memory (mem_query : Option Nat) (p : Process) : Process :=
  match mem_query with
  | some private_usage => { p with memory := private_usage >>> 10 }
  | none => p

/-- Concrete record with zeroed metrics and a valid handle, used to
evaluate the operations on explicit inputs. -/
def p0 : Process :=
  { name := "", cmd := "", exe := "", pid := 1, environ := [], cwd := "",
    root := "", memory := 0, parent := none, status := ProcessStatus.Run,
    handle := some 1, old_cpu := 0, old_sys_cpu := 0, old_user_cpu := 0,
    start_time := 0, cpu_usage := some 0 }

/-- Concrete degraded record: no valid handle. -/
def degraded_p : Process := { p0 with handle := none }

/-- Concrete record with a valid handle value 5. -/
def p5 : Process := { p0 with handle := some 5 }

/-- Concrete record carrying earlier CPU samples and a finite cpu_usage. -/
def p_prev : Process :=
  { p0 with
    old_cpu := 5
    old_sys_cpu := 3
    old_user_cpu := 4
    cpu_usage := some 42 }

/-- OS oracle that rejects every TerminateProcess request. -/
def os_reject : Option Nat → Nat → Bool := fun _ _ => false

/-- OS oracle that accepts every TerminateProcess request. -/
def os_accept : Option Nat → Nat → Bool := fun _ _ => true

/-- C7: on a successful memory query, `memory` is set to the reported
private-usage byte count shifted right by 10 — the truncating division by
1024 — and on a failed query the record, hence its `memory` field, is left
exactly as it was. -/
theorem update_memory_spec :
    (∀ (p : Process) (private_usage : Nat),
      (update_memory (some private_usage) p).memory = private_usage >>> 10
        ∧ private_usage >>> 10 = private_usage / 1024)
    ∧ (∀ p : Process, update_memory none p = p) := by
  constructor
  · intro p private_usage
    constructor
    · rfl
    · rw [Nat.shiftRight_eq_div_pow]
  · intro p
    rfl

/-- C8: `get_parent_process_id` scans the snapshot entries in order and
returns the recorded parent pid of the first entry whose own pid equals the
query, `none` when the snapshot is exhausted without a match; on the
snapshot [(4,1),(8,4)] the query 8 yields some 4 and the query 99 yields
none. -/
theorem get_parent_process_id_spec :
    (∀ (snapshot : List (Nat × Nat)) (pid : Nat),
      get_parent_process_id snapshot pid =
        (List.find? (fun e => pid == e.1) snapshot).map (fun e => e.2))
    ∧ get_parent_process_id [(4, 1), (8, 4)] 8 = some 4
    ∧ get_parent_process_id [(4, 1), (8, 4)] 99 = none := by
  refine ⟨?_, rfl, rfl⟩
  intro snapshot pid
  induction snapshot with
  | nil => rfl
  | cons e rest ih =>
    cases h : (pid == e.1) <;>
      simp [get_parent_process_id, List.find?_cons, h, ih]

/-- C2: with `wall_now = wall_prev` (here both zero) the code divides by a
zero wall-clock delta: the resulting cpu_usage is non-finite (NaN), not the
0.0 the claim requires. -/
theorem compute_cpu_usage_zero_wall_delta :
    (compute_cpu_usage p0 1 (0, 0) (some ((0, 0), (0, 0)))).cpu_usage = none
    ∧ (compute_cpu_usage p0 1 (0, 0) (some ((0, 0), (0, 0)))).cpu_usage ≠ some 0 := by
  constructor
  · rfl
  · decide

/-- C5: `kill` issues the TerminateProcess request even on a degraded
record — the call list is nonempty, with the NULL handle passed to the OS —
and its boolean result is whatever the OS reports: with an OS accepting the
request on a NULL handle it would return true, so the false result on a
degraded record comes from the OS rejection, not from a guard in the code. -/
theorem kill_degraded_calls_os :
    (Process.kill_traced os_reject degraded_p 9).2 = [(none, 9)]
    ∧ Process.kill os_reject degraded_p 9 = false
    ∧ Process.kill os_accept degraded_p 9 = true := by
  refine ⟨rfl, rfl, rfl⟩

/-- C9: `Process` derives Clone while its Drop closes the handle, so cloning
a record that holds handle 5 and dropping both the clone and the original
issues CloseHandle on handle 5 twice — the release is not exactly-once and
the type does not forbid copying. -/
theorem clone_drop_double_release :
    Process.drop (Process.clone p5) ++ Process.drop p5 = [5, 5] := rfl

/-- C10: when GetProcessTimes fails (stale handle), `compute_cpu_usage`
ignores the failure: it overwrites the previous-sample fields with the
zeroed local readings and the wall clock, and recomputes cpu_usage from the
underflowed deltas — the fields do not keep their pre-call values. -/
theorem compute_cpu_usage_failed_query_overwrites :
    (compute_cpu_usage p_prev 1 (9, 0) none).old_sys_cpu = 0
    ∧ (compute_cpu_usage p_prev 1 (9, 0) none).old_user_cpu = 0
    ∧ (compute_cpu_usage p_prev 1 (9, 0) none).old_cpu = 9
    ∧ p_prev.old_sys_cpu = 3 ∧ p_prev.old_user_cpu = 4 ∧ p_prev.old_cpu = 5
    ∧ (compute_cpu_usage p_prev 1 (9, 0) none).cpu_usage ≠ p_prev.cpu_usage := by
  refine ⟨rfl, rfl, rfl, rfl, rfl, rfl, ?_⟩
  norm_num [compute_cpu_usage, p_prev, p0, u64_sub, filetime_to_u64,
    f32_div, f32_div_opt, f32_mul100]

/-- Bound on reassembled FILETIME values: they fit in 64 bits. -/
theorem filetime_to_u64_lt (lo hi : Nat) : filetime_to_u64 lo hi < 2 ^ 64 := by
  unfold filetime_to_u64
  have h32 : (2 : Nat) ^ 32 = 4294967296 := by norm_num
  have h64 : (2 : Nat) ^ 64 = 18446744073709551616 := by norm_num
  rw [h32, h64]
  omega

/-- Wrapping 64-bit subtraction agrees with plain subtraction when the
counters do not regress and fit in 64 bits. -/
theorem u64_sub_of_le (a b : Nat) (hb : b ≤ a) (ha : a < 2 ^ 64) :
    u64_sub a b = a - b := by
  unfold u64_sub
  have h64 : (2 : Nat) ^ 64 = 18446744073709551616 := by norm_num
  rw [h64]
  omega

/-- C3: handle acquisition yields none exactly when the pid is 0 or both
OpenProcess permission tiers are denied; for a nonzero pid it requests the
maximal mask query+vm_read+terminate first, and only when that request is
denied does it retry with the reduced mask query+vm_read, returning whatever
the succeeding request produced. -/
theorem get_process_handler_spec (openProcess : Nat → Nat → Option Nat) (pid : Nat) :
    (get_process_handler openProcess pid = none ↔
      pid = 0 ∨
        (openProcess (Nat.lor (Nat.lor PROCESS_QUERY_INFORMATION PROCESS_VM_READ) PROCESS_TERMINATE) pid = none
          ∧ openProcess (Nat.lor PROCESS_QUERY_INFORMATION PROCESS_VM_READ) pid = none))
    ∧ (pid ≠ 0 →
        openProcess (Nat.lor (Nat.lor PROCESS_QUERY_INFORMATION PROCESS_VM_READ) PROCESS_TERMINATE) pid ≠ none →
        (get_process_handler_traced openProcess pid).2 =
            [Nat.lor (Nat.lor PROCESS_QUERY_INFORMATION PROCESS_VM_READ) PROCESS_TERMINATE]
          ∧ get_process_handler openProcess pid =
            openProcess (Nat.lor (Nat.lor PROCESS_QUERY_INFORMATION PROCESS_VM_READ) PROCESS_TERMINATE) pid)
    ∧ (pid ≠ 0 →
        openProcess (Nat.lor (Nat.lor PROCESS_QUERY_INFORMATION PROCESS_VM_READ) PROCESS_TERMINATE) pid = none →
        (get_process_handler_traced openProcess pid).2 =
            [Nat.lor (Nat.lor PROCESS_QUERY_INFORMATION PROCESS_VM_READ) PROCESS_TERMINATE,
              Nat.lor PROCESS_QUERY_INFORMATION PROCESS_VM_READ]
          ∧ get_process_handler openProcess pid =
            openProcess (Nat.lor PROCESS_QUERY_INFORMATION PROCESS_VM_READ) pid) := by
  by_cases hp : pid = 0
  · subst hp
    refine ⟨by simp [get_process_handler, get_process_handler_traced], ?_, ?_⟩
    · intro h
      exact absurd rfl h
    · intro h
      exact absurd rfl h
  · cases h1 : openProcess (Nat.lor (Nat.lor PROCESS_QUERY_INFORMATION PROCESS_VM_READ) PROCESS_TERMINATE) pid with
    | none =>
      cases h2 : openProcess (Nat.lor PROCESS_QUERY_INFORMATION PROCESS_VM_READ) pid with
      | none =>
        refine ⟨?_, ?_, ?_⟩
        · simp [get_process_handler, get_process_handler_traced, hp, h1, h2]
        · intro _ hne
          exact absurd rfl hne
        · intro _ _
          constructor
          · simp [get_process_handler_traced, hp, h1, h2]
          · simp [get_process_handler, get_process_handler_traced, hp, h1, h2]
      | some h =>
        refine ⟨?_, ?_, ?_⟩
        · simp [get_process_handler, get_process_handler_traced, hp, h1, h2]
        · intro _ hne
          exact absurd rfl hne
        · intro _ _
          constructor
          · simp [get_process_handler_traced, hp, h1, h2]
          · simp [get_process_handler, get_process_handler_traced, hp, h1, h2]
    | some h =>
      refine ⟨?_, ?_, ?_⟩
      · simp [get_process_handler, get_process_handler_traced, hp, h1]
      · intro _ _
        constructor
        · simp [get_process_handler_traced, hp, h1]
        · simp [get_process_handler, get_process_handler_traced, hp, h1]
      · intro _ habs
        exact absurd habs (by simp)

/-- OpenProcess oracle that denies the maximal mask and grants the reduced
one, exercising the permission-downgrade path. -/
def openP_fallback : Nat → Nat → Option Nat := fun options pid =>
  if options = Nat.lor PROCESS_QUERY_INFORMATION PROCESS_VM_READ then some (pid + 1)
  else none

/-- Witness for C3: on pid 5 with an OS denying the maximal tier, both masks
are requested, in order, and the reduced-tier handle is returned. -/
theorem get_process_handler_spec_witness :
    (get_process_handler_traced openP_fallback 5).2 =
        [Nat.lor (Nat.lor PROCESS_QUERY_INFORMATION PROCESS_VM_READ) PROCESS_TERMINATE,
          Nat.lor PROCESS_QUERY_INFORMATION PROCESS_VM_READ]
      ∧ get_process_handler openP_fallback 5 =
        openP_fallback (Nat.lor PROCESS_QUERY_INFORMATION PROCESS_VM_READ) 5 :=
  (get_process_handler_spec openP_fallback 5).2.2 (by decide) (by decide)

/-- C4: when handle acquisition fails, `Process.new` returns the degraded
record: exactly the given pid and parent hint, empty identity strings, empty
environ, zero memory and start_time, zeroed previous samples, cpu_usage 0.0
and a NULL handle — and, being a total function, it cannot panic. -/
theorem process_new_degraded (openProcess : Nat → Nat → Option Nat)
    (enum_modules : Nat → Bool) (module_base_name : Nat → List Nat)
    (creation_time : Nat → Option (Nat × Nat)) (pid : Nat) (parent : Option Nat)
    (h : get_process_handler openProcess pid = none) :
    Process.new openProcess enum_modules module_base_name creation_time pid parent =
      { handle := none
        name := ""
        pid := pid
        parent := parent
        cmd := ""
        environ := []
        exe := ""
        cwd := ""
        root := ""
        status := ProcessStatus.Run
        memory := 0
        cpu_usage := some 0
        old_cpu := 0
        old_sys_cpu := 0
        old_user_cpu := 0
        start_time := 0 } := by
  unfold Process.new
  rw [h]

/-- OpenProcess oracle that denies every request. -/
def openP_none : Nat → Nat → Option Nat := fun _ _ => none

/-- Witness for C4: with an OS denying both tiers on pid 7, the constructed
record is the degraded one carrying pid 7 and the parent hint 1. -/
theorem process_new_degraded_witness :
    Process.new openP_none (fun _ => true) (fun _ => []) (fun _ => none) 7 (some 1) =
      { handle := none
        name := ""
        pid := 7
        parent := some 1
        cmd := ""
        environ := []
        exe := ""
        cwd := ""
        root := ""
        status := ProcessStatus.Run
        memory := 0
        cpu_usage := some 0
        old_cpu := 0
        old_sys_cpu := 0
        old_user_cpu := 0
        start_time := 0 } :=
  process_new_degraded openP_none (fun _ => true) (fun _ => []) (fun _ => none) 7
    (some 1) rfl

/-- OpenProcess oracle that grants every request with handle 3. -/
def openP_ok : Nat → Nat → Option Nat := fun _ _ => some 3

/-- Module-name buffer oracle: the letter c followed by the NUL
terminator. -/
def name_buf : Nat → List Nat := fun _ => [99, 0]

/-- C6 counterexample: a record constructed with a granted handle for the
caller's own pid (here 42 — `get_proc_env` ignores the pid entirely, so the
same holds whatever the caller's pid is) has an empty environ, not a
non-empty sequence of KEY=VALUE entries. -/
theorem own_pid_environ_empty :
    (Process.new openP_ok (fun _ => true) name_buf (fun _ => some (0, 0)) 42 none).environ
      = [] := rfl

/-- C6 amended: environ is the empty sequence for every constructed record,
the caller's own process included — `get_proc_env` is stubbed in the source
and returns the empty vector for every handle, pid and name. -/
theorem environ_always_empty :
    (∀ (handle : Option Nat) (pid : Nat) (name : String),
      get_proc_env handle pid name = [])
    ∧ ∀ (openProcess : Nat → Nat → Option Nat) (enum_modules : Nat → Bool)
        (module_base_name : Nat → List Nat)
        (creation_time : Nat → Option (Nat × Nat)) (pid : Nat) (parent : Option Nat),
        (Process.new openProcess enum_modules module_base_name creation_time
          pid parent).environ = [] := by
  constructor
  · intro handle pid name
    rfl
  · intro openProcess enum_modules module_base_name creation_time pid parent
    unfold Process.new
    cases h : get_process_handler openProcess pid <;> rfl

/-- C1: on every call with a successful GetProcessTimes, `compute_cpu_usage`
overwrites the three previous-sample fields (wall, system, user) with the
current readings, independent of the computed value; and whenever the
counters do not regress, the wall clock advances and the processor count is
nonzero, the stored cpu_usage is exactly
((sys_now - sys_prev) + (user_now - user_prev)) / (wall_now - wall_prev) /
nb_processors * 100. -/
theorem compute_cpu_usage_spec :
    (∀ (p : Process) (nb : Nat) (st ks us : Nat × Nat),
      (compute_cpu_usage p nb st (some (ks, us))).old_cpu = filetime_to_u64 st.1 st.2
        ∧ (compute_cpu_usage p nb st (some (ks, us))).old_sys_cpu = filetime_to_u64 ks.1 ks.2
        ∧ (compute_cpu_usage p nb st (some (ks, us))).old_user_cpu = filetime_to_u64 us.1 us.2)
    ∧ ∀ (p : Process) (nb : Nat) (st ks us : Nat × Nat),
        p.old_sys_cpu ≤ filetime_to_u64 ks.1 ks.2 →
        p.old_user_cpu ≤ filetime_to_u64 us.1 us.2 →
        p.old_cpu < filetime_to_u64 st.1 st.2 →
        nb ≠ 0 →
        (compute_cpu_usage p nb st (some (ks, us))).cpu_usage =
          some ((((filetime_to_u64 ks.1 ks.2 : Rat) - (p.old_sys_cpu : Rat))
              + ((filetime_to_u64 us.1 us.2 : Rat) - (p.old_user_cpu : Rat)))
            / ((filetime_to_u64 st.1 st.2 : Rat) - (p.old_cpu : Rat))
            / (nb : Rat) * 100) := by
  constructor
  · intro p nb st ks us
    exact ⟨rfl, rfl, rfl⟩
  · intro p nb st ks us hs hu hw hnb
    have hks := filetime_to_u64_lt ks.1 ks.2
    have hus := filetime_to_u64_lt us.1 us.2
    have hst := filetime_to_u64_lt st.1 st.2
    have hden : ((filetime_to_u64 st.1 st.2 : Rat) - (p.old_cpu : Rat)) ≠ 0 := by
      have h := hw
      have : (p.old_cpu : Rat) < (filetime_to_u64 st.1 st.2 : Rat) := by
        exact_mod_cast h
      linarith
    have hnb2 : ((nb : Nat) : Rat) ≠ 0 := Nat.cast_ne_zero.mpr hnb
    simp only [compute_cpu_usage]
    rw [u64_sub_of_le _ _ hs hks, u64_sub_of_le _ _ hu hus,
      u64_sub_of_le _ _ hw.le hst]
    rw [Nat.cast_sub hs, Nat.cast_sub hu, Nat.cast_sub hw.le]
    simp [f32_div, f32_div_opt, f32_mul100, hden, hnb2]

/-- Witness for C1: from the zeroed record, a wall sample of 4 ticks with 1
kernel tick and 2 user ticks on one logical processor stores (1+2)/4*100 =
75 and the three current readings. -/
theorem compute_cpu_usage_spec_witness :
    ((compute_cpu_usage p0 1 (4, 0) (some ((1, 0), (2, 0)))).old_cpu = filetime_to_u64 4 0
      ∧ (compute_cpu_usage p0 1 (4, 0) (some ((1, 0), (2, 0)))).old_sys_cpu = filetime_to_u64 1 0
      ∧ (compute_cpu_usage p0 1 (4, 0) (some ((1, 0), (2, 0)))).old_user_cpu = filetime_to_u64 2 0)
    ∧ (compute_cpu_usage p0 1 (4, 0) (some ((1, 0), (2, 0)))).cpu_usage = some 75 := by
  constructor
  · exact compute_cpu_usage_spec.1 p0 1 (4, 0) (1, 0) (2, 0)
  · have h := compute_cpu_usage_spec.2 p0 1 (4, 0) (1, 0) (2, 0)
      (by decide) (by decide) (by decide) (by decide)
    rw [h]
    norm_num [p0, filetime_to_u64]
